import Mathlib

/-!
# mavlink_ros: OperatorController

A shallow embedding of `src/OperatorController.cpp` and
`include/mavlink_ros/OperatorController.h`.

Conventions of the embedding.

* C++ `double` values are exact rationals (`ℚ`); `ceil` is `Int.ceil` cast back to `ℚ`.
* The collaborators that live in other packages are interfaces the development is
  parametric in: `control::PID` (`PIDApi`), the `tf` transform algebra (`TFApi`).
  Their return values are never assumed to satisfy anything.
* Calls on collaborators with side effects (`mavlink_cpp::GCS`, the PID channels, the
  timer, the debug publisher, `sleep_for`) are recorded, in program order, in a trace of
  `Event`s.  Logging calls (`Info`, `Warn`) have no effect on the state and are left out.
* What the environment supplies during one iteration of `Loop` (the `ControlState`
  snapshot, what `lookupTransform` returns, pushes arriving during a `wait_for`, the timer
  reading, the clock) is a `TickInput`.  `ControlState` is read as one snapshot per
  iteration.
-/

namespace mavlink_ros

/-- Modelled from the spec: the enumeration `FLY_MODE_R`, declared in `mavlink_cpp` and
not among the sources.  The specification (§3) lists the modes MANUAL, STABILIZE,
DEPTH_HOLD and GUIDED; they are also the four enumerators the controller names. -/
inductive FLY_MODE_R where
  | MANUAL
  | STABILIZE
  | DEPTH_HOLD
  | GUIDED
  deriving DecidableEq, Repr

/-- The four PID channels owned by the controller. -/
inductive Channel where
  | yaw
  | x
  | y
  | z
  deriving DecidableEq, Repr

/-- `tf::Vector3`. -/
structure Vector3 where
  x : ℚ
  y : ℚ
  z : ℚ
  deriving DecidableEq, Repr

/-- `tf::StampedTransform`: a transform with a time stamp and two frame names. -/
structure StampedTransform (T : Type) where
  transform : T
  stamp : ℚ
  frame_id : String
  child_frame_id : String
  deriving DecidableEq, Repr

/-- The part of the `tf` library the controller calls. -/
structure TFApi (T : Type) where
  inverse : T → T
  mul : T → T → T
  getOrigin : T → Vector3
  getYaw : T → ℚ

/-- The part of `control::PID` the controller calls; `σ` is the state of one channel.
`calculate st dt setpoint pv` returns the output and the channel's next state. -/
structure PIDApi (σ : Type) where
  SetConstants : σ → ℚ → ℚ → ℚ → ℚ → ℚ → σ
  Reset : σ → σ
  calculate : σ → ℚ → ℚ → ℚ → ℚ × σ

/-- `OperatorController::Params`. -/
structure Params where
  sitl : Bool
  use_tf : Bool
  desired_robot_tf : String
  robot_tf : String
  ref_tf : String
  deriving DecidableEq, Repr

/-- `OperatorController::ControlState`. -/
structure ControlState where
  x : ℚ
  y : ℚ
  z : ℚ
  r : ℚ
  mode : FLY_MODE_R
  arm : Bool
  deriving DecidableEq, Repr

/-- The record `mavlink_ros_msgs::pid_debug` published once per autonomous iteration. -/
structure pid_debug where
  pout_yaw : ℚ
  pout_x : ℚ
  pout_y : ℚ
  pout_z : ℚ
  error_yaw : ℚ
  error_x : ℚ
  error_y : ℚ
  error_z : ℚ
  target_yaw : ℚ
  target_x : ℚ
  target_y : ℚ
  target_z : ℚ
  current_yaw : ℚ
  current_x : ℚ
  current_y : ℚ
  current_z : ℚ
  deriving DecidableEq, Repr

/-- One call on a collaborator, as recorded in the trace of an iteration.  The arguments
are the values the controller computes, before any conversion to the parameter types of
the callee. -/
inductive Event where
  | Arm (flag : Bool)
  | SetFlyMode (mode : FLY_MODE_R)
  | SetManualControl (x y z r : ℚ)
  | PIDReset (c : Channel)
  | PIDCalculate (c : Channel) (dt setpoint pv : ℚ)
  | TimerReset
  | Sleep (ms : ℕ)
  | Publish (msg : pid_debug)
  deriving DecidableEq, Repr

/-- The members of `OperatorController` that `Start`, `ResetPID`, the pose setters and
getters and `Loop` read or write. -/
structure OperatorController (σ T : Type) where
  _params : Params
  vmax : ℚ
  vmin : ℚ
  yawPID : σ
  xPID : σ
  yPID : σ
  zPID : σ
  yoffset : ℚ
  xoffset : ℚ
  roffset : ℚ
  zoffset : ℚ
  deadband : ℚ
  baseZ : ℚ
  zoffsetPos : ℚ
  _nedMerov : T
  _nedMtarget : T
  nedMerovUpdated : Bool
  nedMtargetUpdated : Bool

/-- The state of `Loop` between two iterations: the object and the locals declared
before the `while`. -/
structure LoopState (σ T : Type) where
  oc : OperatorController σ T
  manual : Bool
  nedMerov : StampedTransform T
  nedMtarget : StampedTransform T

/-- What the environment supplies during one iteration of `Loop`. -/
structure TickInput (T : Type) where
  /-- The public member `ControlState` as read in this iteration. -/
  cs : ControlState
  /-- Results of the two `listener.lookupTransform` calls; `none` is a thrown
  `tf::TransformException`. -/
  lookupRov : Option (StampedTransform T)
  lookupTarget : Option (StampedTransform T)
  /-- A `SetnedMerov` / `SetnedMtarget` call that arrives while the getter is inside
  `wait_for`; `none` when the wait times out. -/
  lateRov : Option T
  lateTarget : Option T
  /-- The value of `timer.Elapsed()`, in milliseconds. -/
  elapsedMs : ℚ
  /-- The values of `ros::Time::now()` inside `GetnedMerov` and `GetnedMtarget`. -/
  nowRov : ℚ
  nowTarget : ℚ

variable {σ T : Type}

/-- `OperatorController::Start`, up to the launch of the `Loop` thread. -/
def Start (pid : PIDApi σ) (c : OperatorController σ T) : OperatorController σ T :=
  if c._params.sitl then
    { c with
      yawPID := pid.SetConstants c.yawPID c.vmax c.vmin 10 20 (5 / 100)
      xPID := pid.SetConstants c.xPID c.vmax c.vmin 10 60 (5 / 100)
      yPID := pid.SetConstants c.yPID c.vmax c.vmin 10 60 (5 / 100)
      zPID := pid.SetConstants c.zPID c.vmax c.vmin 20 10 (1 / 10)
      baseZ := -77
      yoffset := 60
      xoffset := 60
      roffset := 400
      zoffset := 10
      deadband := 0
      zoffsetPos := 0 }
  else
    { c with
      yawPID := pid.SetConstants c.yawPID c.vmax c.vmin 10 20 (5 / 100)
      xPID := pid.SetConstants c.xPID c.vmax c.vmin 20 60 (5 / 100)
      yPID := pid.SetConstants c.yPID c.vmax c.vmin 20 60 (5 / 100)
      zPID := pid.SetConstants c.zPID c.vmax c.vmin 20 10 (5 / 100)
      baseZ := -20
      yoffset := 45
      xoffset := 45
      roffset := 440
      zoffset := 10
      deadband := 0
      zoffsetPos := 100 }

/-- `OperatorController::ResetPID`. -/
def ResetPID (pid : PIDApi σ) (c : OperatorController σ T) :
    OperatorController σ T × List Event :=
  ({ c with
      yawPID := pid.Reset c.yawPID
      xPID := pid.Reset c.xPID
      yPID := pid.Reset c.yPID
      zPID := pid.Reset c.zPID },
   [Event.PIDReset Channel.yaw, Event.PIDReset Channel.x, Event.PIDReset Channel.y,
    Event.PIDReset Channel.z, Event.TimerReset])

/-- `OperatorController::SetTfMode`. -/
def SetTfMode (c : OperatorController σ T) (tfmode : Bool) : OperatorController σ T :=
  { c with _params := { c._params with use_tf := tfmode } }

/-- `OperatorController::SetnedMerov`. -/
def SetnedMerov (c : OperatorController σ T) (transform : T) : OperatorController σ T :=
  { c with _nedMerov := transform, nedMerovUpdated := true }

/-- `OperatorController::SetnedMtarget`. -/
def SetnedMtarget (c : OperatorController σ T) (transform : T) : OperatorController σ T :=
  { c with _nedMtarget := transform, nedMtargetUpdated := true }

/-- `OperatorController::GetnedMerov`.  `transform` is the caller's variable behind the
reference parameter, `late` a push arriving during `wait_for`.  Returns the `bool`
result, the caller's variable afterwards and the object afterwards. -/
def GetnedMerov (c : OperatorController σ T) (transform : StampedTransform T)
    (late : Option T) (now : ℚ) : Bool × StampedTransform T × OperatorController σ T :=
  let c1 :=
    if !c.nedMerovUpdated then
      match late with
      | some p => SetnedMerov c p
      | none => c
    else c
  if c1.nedMerovUpdated then
    (true,
     { transform := c1._nedMerov, stamp := now, frame_id := c1._params.ref_tf,
       child_frame_id := c1._params.robot_tf },
     { c1 with nedMerovUpdated := false })
  else
    (false, transform, c1)

/-- `OperatorController::GetnedMtarget`, with the conventions of `GetnedMerov`. -/
def GetnedMtarget (c : OperatorController σ T) (transform : StampedTransform T)
    (late : Option T) (now : ℚ) : Bool × StampedTransform T × OperatorController σ T :=
  let c1 :=
    if !c.nedMtargetUpdated then
      match late with
      | some p => SetnedMtarget c p
      | none => c
    else c
  if c1.nedMtargetUpdated then
    (true,
     { transform := c1._nedMtarget, stamp := now, frame_id := c1._params.ref_tf,
       child_frame_id := c1._params.desired_robot_tf },
     { c1 with nedMtargetUpdated := false })
  else
    (false, transform, c1)

/-- `OperatorController::ArduSubXYR`. -/
def ArduSubXYR (per : ℚ) : ℚ := per * 10

/-- `OperatorController::ArduSubZ`; the literal `0.2` is the rational `2/10`. -/
def ArduSubZ (per : ℚ) : ℚ := (per + 100) / (2 / 10)

/-- The C library `ceil` on a `double`: the result is again a `double`. -/
def ceil (v : ℚ) : ℚ := ((Int.ceil v : ℤ) : ℚ)

/-- `OperatorController::keepHeadingIteration`: the returned velocity, the object
afterwards and the call made on the yaw channel. -/
def keepHeadingIteration (pid : PIDApi σ) (c : OperatorController σ T) (dt diff : ℚ) :
    ℚ × OperatorController σ T × List Event :=
  let r := pid.calculate c.yawPID dt 0 (-1 * diff)
  let vel := r.1
  (vel, { c with yawPID := r.2 }, [Event.PIDCalculate Channel.yaw dt 0 (-1 * diff)])

/-- `OperatorController::GetLinearXVel`: the value stored in `vx`, the object afterwards
and the call made on the x channel. -/
def GetLinearXVel (pid : PIDApi σ) (c : OperatorController σ T) (dt diffx : ℚ) :
    ℚ × OperatorController σ T × List Event :=
  let r := pid.calculate c.xPID dt 0 (-diffx)
  (r.1, { c with xPID := r.2 }, [Event.PIDCalculate Channel.x dt 0 (-diffx)])

/-- `OperatorController::GetLinearYVel`. -/
def GetLinearYVel (pid : PIDApi σ) (c : OperatorController σ T) (dt diffy : ℚ) :
    ℚ × OperatorController σ T × List Event :=
  let r := pid.calculate c.yPID dt 0 (-diffy)
  (r.1, { c with yPID := r.2 }, [Event.PIDCalculate Channel.y dt 0 (-diffy)])

/-- `OperatorController::GetLinearZVel`. -/
def GetLinearZVel (pid : PIDApi σ) (c : OperatorController σ T) (dt diffz : ℚ) :
    ℚ × OperatorController σ T × List Event :=
  let r := pid.calculate c.zPID dt 0 (-diffz)
  (r.1, { c with zPID := r.2 }, [Event.PIDCalculate Channel.z dt 0 (-diffz)])

/-- The condition of the `if` that opens the body of `Loop`:
`ControlState.mode == GUIDED && ControlState.arm`. -/
def guided (cs : ControlState) : Bool :=
  cs.mode == FLY_MODE_R.GUIDED && cs.arm

/-- `Loop`, lines 148-152: on entry from the manual branch, `ResetPID()` and
`manual = false`. -/
def Loop_enter (pid : PIDApi σ) (s : LoopState σ T) : LoopState σ T × List Event :=
  if s.manual then
    let r := ResetPID pid s.oc
    ({ s with oc := r.1, manual := false }, r.2)
  else
    (s, [])

/-- `Loop`, lines 153-173: pose acquisition.  The `Bool` is `false` on the two paths
that end in `continue`; the locals `nedMerov`, `nedMtarget` and the slots are updated as
far as the calls got. -/
def Loop_acquire (s : LoopState σ T) (inp : TickInput T) : Bool × LoopState σ T :=
  if s.oc._params.use_tf then
    match inp.lookupRov with
    | none => (false, s)
    | some a =>
      match inp.lookupTarget with
      | none => (false, { s with nedMerov := a })
      | some b => (true, { s with nedMerov := a, nedMtarget := b })
  else
    let g1 := GetnedMerov s.oc s.nedMerov inp.lateRov inp.nowRov
    if !g1.1 then
      (false, { s with oc := g1.2.2, nedMerov := g1.2.1 })
    else
      let g2 := GetnedMtarget g1.2.2 s.nedMtarget inp.lateTarget inp.nowTarget
      if !g2.1 then
        (false, { s with oc := g2.2.2, nedMerov := g1.2.1, nedMtarget := g2.2.1 })
      else
        (true, { s with oc := g2.2.2, nedMerov := g1.2.1, nedMtarget := g2.2.1 })

/-- `Loop`, the two `catch` / `if` bodies of lines 159-164 and 166-172: disarm, back off
50 ms, `continue` (the 100 ms sleep that ends the body is skipped). -/
def Loop_abort : List Event :=
  [Event.Arm false, Event.Sleep 50]

/-- `Loop`, lines 174-268 and 296: the autonomous pipeline after a successful pose
acquisition. -/
def Loop_autonomous (pid : PIDApi σ) (tf : TFApi T) (s : LoopState σ T)
    (inp : TickInput T) : LoopState σ T × List Event :=
  let nedTerov := tf.getOrigin s.nedMerov.transform
  let cyaw := tf.getYaw s.nedMerov.transform
  let nedTtarget := tf.getOrigin s.nedMtarget.transform
  let tyaw := tf.getYaw s.nedMtarget.transform
  let rovMtarget := tf.mul (tf.inverse s.nedMerov.transform) s.nedMtarget.transform
  let erovTtarget := tf.getOrigin rovMtarget
  let vTlpX := erovTtarget.x
  let vTlpY := erovTtarget.y
  let vTlpZ := erovTtarget.z
  let elapsedSecs := inp.elapsedMs / 1000
  let gx := GetLinearXVel pid s.oc elapsedSecs vTlpX
  let gy := GetLinearYVel pid gx.2.1 elapsedSecs vTlpY
  let gz := GetLinearZVel pid gy.2.1 elapsedSecs (-vTlpZ)
  let vx := gx.1
  let vy := gy.1
  let vz := gz.1
  let vx := if vx > 100 then 100 else vx
  let vx := if vx < -100 then -100 else vx
  let vy := if vy > 100 then 100 else vy
  let vy := if vy < -100 then -100 else vy
  let vz := if vz > 100 then 100 else vz
  let vz := if vz < -100 then -100 else vz
  let rdiff := tf.getYaw rovMtarget
  let kh := keepHeadingIteration pid gz.2.1 elapsedSecs rdiff
  let rv0 := kh.1
  let c := kh.2.1
  let newZ := vz + c.baseZ
  let x := ceil (ArduSubXYR vx)
  let y := ceil (ArduSubXYR vy)
  let z := ceil (ArduSubZ newZ)
  let r := ceil (ArduSubXYR rv0)
  let y := if y > c.deadband then y + c.yoffset
    else if y < -c.deadband then y - c.yoffset else y
  let x := if x > c.deadband then x + c.xoffset
    else if x < -c.deadband then x - c.xoffset else x
  let z := if z > 500 then z + c.zoffsetPos
    else if z < 500 then z - c.zoffset else z
  let r := if r > c.deadband then r + (c.roffset + 5)
    else if r < -c.deadband then r - c.roffset else r
  let pid_debug_msg : pid_debug :=
    { pout_yaw := r, pout_x := x, pout_y := y, pout_z := z,
      error_yaw := rdiff, error_x := vTlpX, error_y := vTlpY, error_z := -vTlpZ,
      target_yaw := tyaw, target_x := nedTtarget.x, target_y := nedTtarget.y,
      target_z := nedTtarget.z,
      current_yaw := cyaw, current_x := nedTerov.x, current_y := nedTerov.y,
      current_z := nedTerov.z }
  ({ s with oc := c },
   [Event.SetFlyMode FLY_MODE_R.STABILIZE, Event.Arm true]
     ++ gx.2.2 ++ gy.2.2 ++ gz.2.2 ++ kh.2.2
     ++ [Event.SetManualControl x y z r, Event.Publish pid_debug_msg, Event.TimerReset,
         Event.Sleep 100])

/-- `Loop`, lines 270-296: the manual branch. -/
def Loop_manual (s : LoopState σ T) (inp : TickInput T) : LoopState σ T × List Event :=
  let mode :=
    match inp.cs.mode with
    | FLY_MODE_R.DEPTH_HOLD => FLY_MODE_R.DEPTH_HOLD
    | FLY_MODE_R.STABILIZE => FLY_MODE_R.STABILIZE
    | FLY_MODE_R.MANUAL => FLY_MODE_R.MANUAL
    | _ => FLY_MODE_R.STABILIZE
  let x := ceil (ArduSubXYR inp.cs.x)
  let y := ceil (ArduSubXYR inp.cs.y)
  let z := ceil (ArduSubZ inp.cs.z)
  let r := ceil (ArduSubXYR inp.cs.r)
  ({ s with manual := true },
   [Event.SetFlyMode mode, Event.Arm inp.cs.arm, Event.SetManualControl x y z r,
    Event.Sleep 100])

/-- One iteration of the `while` of `Loop` (lines 147-297): the state afterwards and
the calls made, in order. -/
def Loop_iteration (pid : PIDApi σ) (tf : TFApi T) (s : LoopState σ T)
    (inp : TickInput T) : LoopState σ T × List Event :=
  if guided inp.cs then
    let e := Loop_enter pid s
    let a := Loop_acquire e.1 inp
    if a.1 then
      let r := Loop_autonomous pid tf a.2 inp
      (r.1, e.2 ++ r.2)
    else
      (a.2, e.2 ++ Loop_abort)
  else
    Loop_manual s inp

/-- The public member functions another thread may call on the object while `Loop`
runs. -/
inductive ExtCall (T : Type) where
  | SetnedMerov (transform : T)
  | SetnedMtarget (transform : T)
  | SetTfMode (tfmode : Bool)
  | SetReferenceTfName (ref : String)
  | SetRobotTfName (ref : String)
  | SetDesiredPosTfName (ref : String)

/-- The effect of one external call on the object. -/
def applyExt (c : OperatorController σ T) : ExtCall T → OperatorController σ T
  | ExtCall.SetnedMerov t => SetnedMerov c t
  | ExtCall.SetnedMtarget t => SetnedMtarget c t
  | ExtCall.SetTfMode b => SetTfMode c b
  | ExtCall.SetReferenceTfName n => { c with _params := { c._params with ref_tf := n } }
  | ExtCall.SetRobotTfName n => { c with _params := { c._params with robot_tf := n } }
  | ExtCall.SetDesiredPosTfName n =>
    { c with _params := { c._params with desired_robot_tf := n } }

/-- One round of the running system: the external calls that happen before the
iteration reads the object, then the inputs of the iteration itself. -/
structure Round (T : Type) where
  ext : List (ExtCall T)
  inp : TickInput T

/-- One round: the external calls, then one iteration of `Loop`. -/
def Loop_round (pid : PIDApi σ) (tf : TFApi T) (s : LoopState σ T) (r : Round T) :
    LoopState σ T × List Event :=
  Loop_iteration pid tf { s with oc := r.ext.foldl applyExt s.oc } r.inp

/-- The state of `Loop` after the given rounds (`ros::ok()` holds once per round). -/
def Loop_state (pid : PIDApi σ) (tf : TFApi T) (s : LoopState σ T) :
    List (Round T) → LoopState σ T
  | [] => s
  | r :: rs => Loop_state pid tf (Loop_round pid tf s r).1 rs

/-- The calls made by `Loop` over the given rounds, one list per iteration. -/
def Loop_trace (pid : PIDApi σ) (tf : TFApi T) (s : LoopState σ T) :
    List (Round T) → List (List Event)
  | [] => []
  | r :: rs => (Loop_round pid tf s r).2 :: Loop_trace pid tf (Loop_round pid tf s r).1 rs

/-- The constructor `OperatorController::OperatorController`, as far as it initialises
the members of the embedding, with the default member initialisers of the header
(`vmax = 1000`, `vmin = -1000`, both `Updated` flags `false`).  `pid0` is a
default-constructed `PID`, `t0` a default-constructed `tf::Transform`.  The seven shaping
constants are indeterminate until `Start` assigns all of them; they are `0` here. -/
def OperatorController.new (params : Params) (pid0 : σ) (t0 : T) :
    OperatorController σ T :=
  { _params :=
      { sitl := params.sitl
        use_tf := params.use_tf
        desired_robot_tf :=
          if params.desired_robot_tf ≠ "" then params.desired_robot_tf
          else "bluerov2_ghost"
        robot_tf := if params.robot_tf ≠ "" then params.robot_tf else "erov"
        ref_tf := if params.ref_tf ≠ "" then params.ref_tf else "local_origin_ned" }
    vmax := 1000
    vmin := -1000
    yawPID := pid0
    xPID := pid0
    yPID := pid0
    zPID := pid0
    yoffset := 0
    xoffset := 0
    roffset := 0
    zoffset := 0
    deadband := 0
    baseZ := 0
    zoffsetPos := 0
    _nedMerov := t0
    _nedMtarget := t0
    nedMerovUpdated := false
    nedMtargetUpdated := false }

/-- The locals of `Loop` on entry to the `while`: `manual = true` and two
default-constructed stamped transforms. -/
def Loop_init (c : OperatorController σ T) (m t : StampedTransform T) : LoopState σ T :=
  { oc := c, manual := true, nedMerov := m, nedMtarget := t }

/-! ### Reading a trace -/

/-- The calls of a trace that go to the actuation interface (`Control->...`). -/
def Event.isActuation : Event → Bool
  | Event.Arm _ => true
  | Event.SetFlyMode _ => true
  | Event.SetManualControl _ _ _ _ => true
  | _ => false

/-- Whether the event is a `calculate` call on some PID channel. -/
def Event.isCalculate : Event → Bool
  | Event.PIDCalculate _ _ _ _ => true
  | _ => false

/-- Whether the event is a `Reset` call on some PID channel. -/
def Event.isPIDReset : Event → Bool
  | Event.PIDReset _ => true
  | _ => false

/-- The arguments of the `SetFlyMode` calls of a trace, in order. -/
def flyModes : List Event → List FLY_MODE_R
  | [] => []
  | Event.SetFlyMode m :: es => m :: flyModes es
  | _ :: es => flyModes es

/-- The arguments of the `Arm` calls of a trace, in order. -/
def armFlags : List Event → List Bool
  | [] => []
  | Event.Arm b :: es => b :: armFlags es
  | _ :: es => armFlags es

/-- The arguments `(x, y, z, r)` of the `SetManualControl` calls of a trace, in order. -/
def commands : List Event → List (ℚ × ℚ × ℚ × ℚ)
  | [] => []
  | Event.SetManualControl x y z r :: es => (x, y, z, r) :: commands es
  | _ :: es => commands es

/-- The arguments `(dt, setpoint, pv)` of the `calculate` calls made on channel `c`, in
order. -/
def calculateCalls (c : Channel) : List Event → List (ℚ × ℚ × ℚ)
  | [] => []
  | Event.PIDCalculate c1 dt sp pv :: es =>
    if c1 = c then (dt, sp, pv) :: calculateCalls c es else calculateCalls c es
  | _ :: es => calculateCalls c es

/-! ### Names for the quantities of an autonomous iteration -/

/-- The state in which the autonomous pipeline of an iteration started from `s` runs:
after `Loop_enter` and a successful `Loop_acquire`. -/
def acquired (pid : PIDApi σ) (s : LoopState σ T) (inp : TickInput T) : LoopState σ T :=
  (Loop_acquire (Loop_enter pid s).1 inp).2

/-- The target pose in the vehicle frame, `nedMerov.inverse() * nedMtarget` (line 183),
for the poses held in `a`. -/
def bodyTarget (tf : TFApi T) (a : LoopState σ T) : T :=
  tf.mul (tf.inverse a.nedMerov.transform) a.nedMtarget.transform

/-- The value the x channel returns to `GetLinearXVel` in the pipeline run from `a`. -/
def xOutput (pid : PIDApi σ) (tf : TFApi T) (a : LoopState σ T) (inp : TickInput T) : ℚ :=
  (pid.calculate a.oc.xPID (inp.elapsedMs / 1000) 0
    (-(tf.getOrigin (bodyTarget tf a)).x)).1

/-- The value the y channel returns to `GetLinearYVel` in the pipeline run from `a`. -/
def yOutput (pid : PIDApi σ) (tf : TFApi T) (a : LoopState σ T) (inp : TickInput T) : ℚ :=
  (pid.calculate a.oc.yPID (inp.elapsedMs / 1000) 0
    (-(tf.getOrigin (bodyTarget tf a)).y)).1

/-- The value the z channel returns to `GetLinearZVel` in the pipeline run from `a`. -/
def zOutput (pid : PIDApi σ) (tf : TFApi T) (a : LoopState σ T) (inp : TickInput T) : ℚ :=
  (pid.calculate a.oc.zPID (inp.elapsedMs / 1000) 0
    (-(-(tf.getOrigin (bodyTarget tf a)).z))).1

/-- The value the yaw channel returns to `keepHeadingIteration` in the pipeline run from
`a`. -/
def yawOutput (pid : PIDApi σ) (tf : TFApi T) (a : LoopState σ T) (inp : TickInput T) :
    ℚ :=
  (pid.calculate a.oc.yawPID (inp.elapsedMs / 1000) 0
    (-1 * tf.getYaw (bodyTarget tf a))).1

/-- The members fixed by the constructor and by `Start`: the PID limits and the seven
shaping constants. -/
def constants (c : OperatorController σ T) : List ℚ :=
  [c.vmax, c.vmin, c.yoffset, c.xoffset, c.roffset, c.zoffset, c.deadband, c.baseZ,
   c.zoffsetPos]

/-! ### Instances of the collaborators, for running the loop on concrete inputs -/

/-- A scripted PID channel: its state is the list of outputs it will return, one per
`calculate` call (`0` once the list is exhausted), whatever the arguments.
`SetConstants` and `Reset` leave the script alone. -/
def scriptedPID : PIDApi (List ℚ) :=
  { SetConstants := fun st _ _ _ _ _ => st
    Reset := fun st => st
    calculate := fun st _ _ _ => (st.headD 0, st.tail) }

/-- Transforms with identity rotation, given by their translation: composition adds,
inversion negates, the yaw is `0`. -/
def translationTF : TFApi Vector3 :=
  { inverse := fun a => { x := -a.x, y := -a.y, z := -a.z }
    mul := fun a b => { x := a.x + b.x, y := a.y + b.y, z := a.z + b.z }
    getOrigin := fun a => a
    getYaw := fun _ => 0 }

/-- Rotations about the vertical axis with zero translation, given by their heading in
radians (small enough that sums stay inside `(-π, π)`): composition adds the headings,
inversion negates, the origin is `0`. -/
def headingTF : TFApi ℚ :=
  { inverse := fun a => -a
    mul := fun a b => a + b
    getOrigin := fun _ => { x := 0, y := 0, z := 0 }
    getYaw := fun a => a }

/-! ### Concrete inputs -/

/-- Parameters selecting the `sitl` preset and the given acquisition mode. -/
def exParams (sitl use_tf : Bool) : Params :=
  { sitl := sitl, use_tf := use_tf, desired_robot_tf := "", robot_tf := "", ref_tf := "" }

/-- A stamped transform around `t`, stamp `0`, frames of the default configuration. -/
def exStamped (t : T) : StampedTransform T :=
  { transform := t, stamp := 0, frame_id := "local_origin_ned", child_frame_id := "erov" }

/-- A `ControlState` with a zero setpoint. -/
def exControl (mode : FLY_MODE_R) (arm : Bool) : ControlState :=
  { x := 0, y := 0, z := 0, r := 0, mode := mode, arm := arm }

/-- The inputs of an iteration in which both lookups succeed with the given transforms,
no push arrives, and 100 ms have elapsed on the timer. -/
def exInput (cs : ControlState) (rov target : Option T) : TickInput T :=
  { cs := cs
    lookupRov := rov.map exStamped
    lookupTarget := target.map exStamped
    lateRov := none
    lateTarget := none
    elapsedMs := 100
    nowRov := 0
    nowTarget := 0 }

/-- The object after construction and `Start`, with scripted PID channels returning the
given outputs on their first `calculate` call. -/
def exController (sitl use_tf : Bool) (t0 : T) (vx vy vz rv : ℚ) :
    OperatorController (List ℚ) T :=
  let c : OperatorController (List ℚ) T :=
    Start scriptedPID (OperatorController.new (exParams sitl use_tf) [] t0)
  { c with xPID := [vx], yPID := [vy], zPID := [vz], yawPID := [rv] }

/-- The state of `Loop` at its first iteration, over `exController`. -/
def exLoop (sitl use_tf : Bool) (t0 : T) (vx vy vz rv : ℚ) : LoopState (List ℚ) T :=
  Loop_init (exController sitl use_tf t0 vx vy vz rv) (exStamped t0) (exStamped t0)

/-- The vehicle pose of the end-to-end scenario: at the origin, zero yaw. -/
def exOrigin : Vector3 := { x := 0, y := 0, z := 0 }

/-- The target pose of the end-to-end scenario: translated by `(1, 0, 0)`, zero yaw. -/
def exAhead : Vector3 := { x := 1, y := 0, z := 0 }

/-- The inputs of a GUIDED and armed iteration in which the lookups return `exOrigin`
for the vehicle and `exAhead` for the target. -/
def exGuided : TickInput Vector3 :=
  exInput (exControl FLY_MODE_R.GUIDED true) (some exOrigin) (some exAhead)

/-- The inputs of a GUIDED and armed iteration in which the lookups return a vehicle
heading of `0` and a target heading of `1` radian, both at the origin. -/
def exTurn : TickInput ℚ :=
  exInput (exControl FLY_MODE_R.GUIDED true) (some 0) (some 1)

/-- The state of `Loop` at its first iteration after construction and `Start` under the
`sitl` preset in tree-lookup mode, with scripted channels that return `0`. -/
def exFresh : LoopState (List ℚ) Vector3 :=
  Loop_init (Start scriptedPID (OperatorController.new (exParams true true) [] exOrigin))
    (exStamped exOrigin) (exStamped exOrigin)

/-- The state of `Loop` after one manual round (mode `MANUAL`, disarmed) run from the
initial state over `exController`, `sitl` preset, tree-lookup mode. -/
def exSecond : LoopState (List ℚ) Vector3 :=
  Loop_state scriptedPID translationTF
    (Loop_init (exController true true (Vector3.mk 0 0 0) 0 0 0 0)
      (exStamped (Vector3.mk 0 0 0)) (exStamped (Vector3.mk 0 0 0)))
    [{ ext := [], inp := exInput (exControl FLY_MODE_R.MANUAL false) none none }]

/-! ## Theorems -/

/-! ### Helper lemmas -/

/-- Whether `GetnedMerov` succeeds depends on the flag and on a late push only. -/
lemma GetnedMerov_fst (c : OperatorController σ T) (t : StampedTransform T)
    (late : Option T) (now : ℚ) :
    (GetnedMerov c t late now).1 = (c.nedMerovUpdated || late.isSome) := by
  cases h : c.nedMerovUpdated <;> cases late <;> simp [GetnedMerov, SetnedMerov, h]

/-- Whether `GetnedMtarget` succeeds depends on the flag and on a late push only. -/
lemma GetnedMtarget_fst (c : OperatorController σ T) (t : StampedTransform T)
    (late : Option T) (now : ℚ) :
    (GetnedMtarget c t late now).1 = (c.nedMtargetUpdated || late.isSome) := by
  cases h : c.nedMtargetUpdated <;> cases late <;> simp [GetnedMtarget, SetnedMtarget, h]

/-- The current-pose getter leaves the target slot's flag alone. -/
lemma GetnedMerov_target_flag (c : OperatorController σ T) (t : StampedTransform T)
    (late : Option T) (now : ℚ) :
    (GetnedMerov c t late now).2.2.nedMtargetUpdated = c.nedMtargetUpdated := by
  cases h : c.nedMerovUpdated <;> cases late <;> simp [GetnedMerov, SetnedMerov, h]

/-- The calls made on entry to the autonomous branch: those of `ResetPID` when the
previous iteration was manual, none otherwise. -/
lemma Loop_enter_events (pid : PIDApi σ) (s : LoopState σ T) :
    (Loop_enter pid s).2
      = if s.manual then
          [Event.PIDReset Channel.yaw, Event.PIDReset Channel.x, Event.PIDReset Channel.y,
           Event.PIDReset Channel.z, Event.TimerReset]
        else [] := by
  cases h : s.manual <;> simp [Loop_enter, ResetPID, h]

/-- Entering the autonomous branch changes neither the parameters nor the slots nor the
locals holding the poses. -/
lemma Loop_enter_frame (pid : PIDApi σ) (s : LoopState σ T) :
    (Loop_enter pid s).1.oc._params = s.oc._params
    ∧ (Loop_enter pid s).1.oc.nedMerovUpdated = s.oc.nedMerovUpdated
    ∧ (Loop_enter pid s).1.oc.nedMtargetUpdated = s.oc.nedMtargetUpdated
    ∧ (Loop_enter pid s).1.manual = false := by
  cases h : s.manual <;> simp [Loop_enter, ResetPID, h]

/-- In tree-lookup mode the acquisition succeeds exactly when both lookups return; in
push mode exactly when both getters return `true`. -/
lemma Loop_acquire_fst (s : LoopState σ T) (inp : TickInput T) :
    (Loop_acquire s inp).1
      = if s.oc._params.use_tf then (inp.lookupRov.isSome && inp.lookupTarget.isSome)
        else ((s.oc.nedMerovUpdated || inp.lateRov.isSome)
              && (s.oc.nedMtargetUpdated || inp.lateTarget.isSome)) := by
  unfold Loop_acquire
  cases hu : s.oc._params.use_tf
  · simp only [Bool.false_eq_true, if_false]
    cases h1 : (GetnedMerov s.oc s.nedMerov inp.lateRov inp.nowRov).1
    · have := GetnedMerov_fst s.oc s.nedMerov inp.lateRov inp.nowRov
      rw [h1] at this
      simp [← this]
    · have e1 := GetnedMerov_fst s.oc s.nedMerov inp.lateRov inp.nowRov
      rw [h1] at e1
      have e2 := GetnedMtarget_fst (GetnedMerov s.oc s.nedMerov inp.lateRov inp.nowRov).2.2
        s.nedMtarget inp.lateTarget inp.nowTarget
      rw [GetnedMerov_target_flag] at e2
      rw [← e1, ← e2]
      cases (GetnedMtarget (GetnedMerov s.oc s.nedMerov inp.lateRov inp.nowRov).2.2
        s.nedMtarget inp.lateTarget inp.nowTarget).1 <;> simp
  · simp only [if_true]
    cases inp.lookupRov <;> cases inp.lookupTarget <;> simp

/-- The calls of the autonomous pipeline, spelled out. -/
lemma Loop_autonomous_events (pid : PIDApi σ) (tf : TFApi T) (s : LoopState σ T)
    (inp : TickInput T) :
    ∃ x y z r msg ex ey ez psi,
      (Loop_autonomous pid tf s inp).2
        = [Event.SetFlyMode FLY_MODE_R.STABILIZE, Event.Arm true,
           Event.PIDCalculate Channel.x (inp.elapsedMs / 1000) 0 (-ex),
           Event.PIDCalculate Channel.y (inp.elapsedMs / 1000) 0 (-ey),
           Event.PIDCalculate Channel.z (inp.elapsedMs / 1000) 0 (-(-ez)),
           Event.PIDCalculate Channel.yaw (inp.elapsedMs / 1000) 0 (-1 * psi),
           Event.SetManualControl x y z r, Event.Publish msg, Event.TimerReset,
           Event.Sleep 100] :=
  ⟨_, _, _, _, _, _, _, _, _, rfl⟩

/-- Acquisition does not touch the `manual` flag. -/
lemma Loop_acquire_manual (s : LoopState σ T) (inp : TickInput T) :
    (Loop_acquire s inp).2.manual = s.manual := by
  unfold Loop_acquire
  split
  · split
    · rfl
    · split <;> rfl
  · dsimp only
    split
    · rfl
    · split <;> rfl

/-- After an iteration, `manual` records whether it took the manual branch. -/
lemma Loop_iteration_manual (pid : PIDApi σ) (tf : TFApi T) (s : LoopState σ T)
    (inp : TickInput T) :
    (Loop_iteration pid tf s inp).1.manual = !guided inp.cs := by
  unfold Loop_iteration
  cases hg : guided inp.cs
  · simp [Loop_manual]
  · simp only [if_true]
    cases ha : (Loop_acquire (Loop_enter pid s).1 inp).1
    · simp [Loop_acquire_manual, (Loop_enter_frame pid s).2.2.2]
    · simp [Loop_autonomous, Loop_acquire_manual, (Loop_enter_frame pid s).2.2.2]

/-- The autonomous branch of an iteration, in terms of its three stages. -/
lemma Loop_iteration_guided (pid : PIDApi σ) (tf : TFApi T) (s : LoopState σ T)
    (inp : TickInput T) (hg : guided inp.cs = true) :
    Loop_iteration pid tf s inp
      = if (Loop_acquire (Loop_enter pid s).1 inp).1 = true then
          ((Loop_autonomous pid tf (Loop_acquire (Loop_enter pid s).1 inp).2 inp).1,
           (Loop_enter pid s).2
             ++ (Loop_autonomous pid tf (Loop_acquire (Loop_enter pid s).1 inp).2 inp).2)
        else
          ((Loop_acquire (Loop_enter pid s).1 inp).2, (Loop_enter pid s).2 ++ Loop_abort) := by
  simp [Loop_iteration, hg]

/-- Running one more round after a list of rounds. -/
lemma Loop_state_append (pid : PIDApi σ) (tf : TFApi T) (s : LoopState σ T)
    (pre : List (Round T)) (r : Round T) :
    Loop_state pid tf s (pre ++ [r]) = (Loop_round pid tf (Loop_state pid tf s pre) r).1 := by
  induction pre generalizing s with
  | nil => rfl
  | cons p ps ih => simpa [Loop_state] using ih (Loop_round pid tf s p).1

/-- The `manual` flag after a list of rounds: the initial one if there was no round, and
otherwise whether the last round took the manual branch. -/
lemma Loop_state_manual (pid : PIDApi σ) (tf : TFApi T) (s : LoopState σ T)
    (pre : List (Round T)) :
    (Loop_state pid tf s pre).manual
      = match pre.getLast? with
        | none => s.manual
        | some p => !guided p.inp.cs := by
  induction pre using List.reverseRecOn with
  | nil => rfl
  | append_singleton ps p _ =>
    rw [Loop_state_append]
    simp [Loop_round, Loop_iteration_manual]

/-- The two saturating `if`s of lines 198-209 compute a clamp to `[-100, 100]`. -/
lemma saturate_eq (v : ℚ) :
    (if (if v > 100 then 100 else v) < -100 then -100 else (if v > 100 then 100 else v))
      = max (-100) (min v 100) := by
  by_cases h1 : v > 100
  · rw [if_pos h1, if_neg (by norm_num), min_eq_right h1.le, max_eq_right (by norm_num)]
  · rw [if_neg h1, min_eq_left (not_lt.mp h1)]
    by_cases h2 : v < -100
    · rw [if_pos h2, max_eq_left h2.le]
    · rw [if_neg h2, max_eq_right (not_lt.mp h2)]

/-- `commands` distributes over concatenation. -/
lemma commands_append (l1 l2 : List Event) :
    commands (l1 ++ l2) = commands l1 ++ commands l2 := by
  induction l1 with
  | nil => rfl
  | cons e es ih => cases e <;> simp [commands, ih]

/-- `calculateCalls` distributes over concatenation. -/
lemma calculateCalls_append (c : Channel) (l1 l2 : List Event) :
    calculateCalls c (l1 ++ l2) = calculateCalls c l1 ++ calculateCalls c l2 := by
  induction l1 with
  | nil => rfl
  | cons e es ih =>
    cases e <;> simp [calculateCalls, ih]
    split <;> simp

/-- Entry into the autonomous branch sends no command and evaluates no channel. -/
lemma Loop_enter_quiet (pid : PIDApi σ) (s : LoopState σ T) (c : Channel) :
    commands (Loop_enter pid s).2 = [] ∧ calculateCalls c (Loop_enter pid s).2 = [] := by
  rw [Loop_enter_events]
  cases s.manual <;> simp [commands, calculateCalls]

/-- Acquisition leaves the constants alone. -/
lemma Loop_acquire_constants (s : LoopState σ T) (inp : TickInput T) :
    constants (Loop_acquire s inp).2.oc = constants s.oc := by
  unfold Loop_acquire
  split
  · split
    · rfl
    · split <;> rfl
  · cases h1 : s.oc.nedMerovUpdated <;> cases h2 : s.oc.nedMtargetUpdated <;>
      cases h3 : inp.lateRov <;> cases h4 : inp.lateTarget <;>
      simp [GetnedMerov, GetnedMtarget, SetnedMerov, SetnedMtarget, constants, h1, h2]

/-- Entry into the autonomous branch leaves the constants alone. -/
lemma Loop_enter_constants (pid : PIDApi σ) (s : LoopState σ T) :
    constants (Loop_enter pid s).1.oc = constants s.oc := by
  cases h : s.manual <;> simp [Loop_enter, ResetPID, constants, h]

/-- The constants seen by the autonomous pipeline are those of the start of the
iteration. -/
lemma acquired_constants (pid : PIDApi σ) (s : LoopState σ T) (inp : TickInput T) :
    constants (acquired pid s inp).oc = constants s.oc := by
  rw [acquired, Loop_acquire_constants, Loop_enter_constants]

/-- The command of the autonomous pipeline, in terms of what the four channels return
and of the constants of the object. -/
lemma Loop_autonomous_commands (pid : PIDApi σ) (tf : TFApi T) (a : LoopState σ T)
    (inp : TickInput T) :
    commands (Loop_autonomous pid tf a inp).2
      = [((if ceil (ArduSubXYR (max (-100) (min (xOutput pid tf a inp) 100)))
                > a.oc.deadband then
              ceil (ArduSubXYR (max (-100) (min (xOutput pid tf a inp) 100)))
                + a.oc.xoffset
            else if ceil (ArduSubXYR (max (-100) (min (xOutput pid tf a inp) 100)))
                < -a.oc.deadband then
              ceil (ArduSubXYR (max (-100) (min (xOutput pid tf a inp) 100)))
                - a.oc.xoffset
            else ceil (ArduSubXYR (max (-100) (min (xOutput pid tf a inp) 100)))),
          (if ceil (ArduSubXYR (max (-100) (min (yOutput pid tf a inp) 100)))
                > a.oc.deadband then
              ceil (ArduSubXYR (max (-100) (min (yOutput pid tf a inp) 100)))
                + a.oc.yoffset
            else if ceil (ArduSubXYR (max (-100) (min (yOutput pid tf a inp) 100)))
                < -a.oc.deadband then
              ceil (ArduSubXYR (max (-100) (min (yOutput pid tf a inp) 100)))
                - a.oc.yoffset
            else ceil (ArduSubXYR (max (-100) (min (yOutput pid tf a inp) 100)))),
          (if ceil (ArduSubZ (max (-100) (min (zOutput pid tf a inp) 100) + a.oc.baseZ))
                > 500 then
              ceil (ArduSubZ (max (-100) (min (zOutput pid tf a inp) 100) + a.oc.baseZ))
                + a.oc.zoffsetPos
            else if ceil (ArduSubZ (max (-100) (min (zOutput pid tf a inp) 100)
                + a.oc.baseZ)) < 500 then
              ceil (ArduSubZ (max (-100) (min (zOutput pid tf a inp) 100) + a.oc.baseZ))
                - a.oc.zoffset
            else ceil (ArduSubZ (max (-100) (min (zOutput pid tf a inp) 100)
                + a.oc.baseZ))),
          (if ceil (ArduSubXYR (yawOutput pid tf a inp)) > a.oc.deadband then
              ceil (ArduSubXYR (yawOutput pid tf a inp)) + (a.oc.roffset + 5)
            else if ceil (ArduSubXYR (yawOutput pid tf a inp)) < -a.oc.deadband then
              ceil (ArduSubXYR (yawOutput pid tf a inp)) - a.oc.roffset
            else ceil (ArduSubXYR (yawOutput pid tf a inp))))] := by
  simp only [← saturate_eq]
  rfl

/-- The command of an iteration of the autonomous branch with a successful acquisition
is the command of its pipeline. -/
lemma Loop_iteration_commands (pid : PIDApi σ) (tf : TFApi T) (s : LoopState σ T)
    (inp : TickInput T) (hg : guided inp.cs = true)
    (hacq : (Loop_acquire (Loop_enter pid s).1 inp).1 = true) :
    commands (Loop_iteration pid tf s inp).2
      = commands (Loop_autonomous pid tf (acquired pid s inp) inp).2 := by
  rw [Loop_iteration_guided pid tf s inp hg, if_pos hacq]
  simp [commands_append, (Loop_enter_quiet pid s Channel.x).1, acquired]

/-- The scaled lateral value: `ceil(ArduSubXYR(v))` is the integer ceiling of `10 * v`. -/
lemma ceil_ArduSubXYR (v : ℚ) : ceil (ArduSubXYR v) = ((⌈10 * v⌉ : ℤ) : ℚ) := by
  simp [ceil, ArduSubXYR, mul_comm]

/-- A value saturated to `[-100, 100]` scales to within `[-1000, 1000]`. -/
lemma scaled_saturated_bounds (v : ℚ) :
    (-1000 : ℚ) ≤ ((⌈10 * max (-100) (min v 100)⌉ : ℤ) : ℚ)
    ∧ ((⌈10 * max (-100) (min v 100)⌉ : ℤ) : ℚ) ≤ 1000 := by
  have h1 : (-100 : ℚ) ≤ max (-100) (min v 100) := le_max_left _ _
  have h2 : max (-100) (min v 100) ≤ (100 : ℚ) :=
    max_le (by norm_num) (min_le_right _ _)
  constructor
  · have h3 : (10 * max (-100) (min v 100) : ℚ) ≤ ((⌈10 * max (-100) (min v 100)⌉ : ℤ) : ℚ) :=
      Int.le_ceil _
    linarith
  · have h3 : ⌈10 * max (-100) (min v 100)⌉ ≤ (1000 : ℤ) := by
      rw [Int.ceil_le]
      push_cast
      linarith
    exact_mod_cast h3

/-- The `calculate` calls of the autonomous pipeline, per channel. -/
lemma Loop_autonomous_calculateCalls (pid : PIDApi σ) (tf : TFApi T) (a : LoopState σ T)
    (inp : TickInput T) :
    calculateCalls Channel.x (Loop_autonomous pid tf a inp).2
        = [(inp.elapsedMs / 1000, 0, -(tf.getOrigin (bodyTarget tf a)).x)]
    ∧ calculateCalls Channel.y (Loop_autonomous pid tf a inp).2
        = [(inp.elapsedMs / 1000, 0, -(tf.getOrigin (bodyTarget tf a)).y)]
    ∧ calculateCalls Channel.z (Loop_autonomous pid tf a inp).2
        = [(inp.elapsedMs / 1000, 0, -(-(tf.getOrigin (bodyTarget tf a)).z))]
    ∧ calculateCalls Channel.yaw (Loop_autonomous pid tf a inp).2
        = [(inp.elapsedMs / 1000, 0, -1 * tf.getYaw (bodyTarget tf a))] :=
  ⟨rfl, rfl, rfl, rfl⟩

/-- The `calculate` calls of an iteration of the autonomous branch with a successful
acquisition are those of its pipeline. -/
lemma Loop_iteration_calculateCalls (pid : PIDApi σ) (tf : TFApi T) (s : LoopState σ T)
    (inp : TickInput T) (c : Channel) (hg : guided inp.cs = true)
    (hacq : (Loop_acquire (Loop_enter pid s).1 inp).1 = true) :
    calculateCalls c (Loop_iteration pid tf s inp).2
      = calculateCalls c (Loop_autonomous pid tf (acquired pid s inp) inp).2 := by
  rw [Loop_iteration_guided pid tf s inp hg, if_pos hacq]
  simp [calculateCalls_append, (Loop_enter_quiet pid s c).2, acquired]

/-- External calls leave the constants alone. -/
lemma applyExt_constants (c : OperatorController σ T) (e : ExtCall T) :
    constants (applyExt c e) = constants c := by
  cases e <;> rfl

/-- Any number of external calls leaves the constants alone. -/
lemma foldl_applyExt_constants (es : List (ExtCall T)) (c : OperatorController σ T) :
    constants (es.foldl applyExt c) = constants c := by
  induction es generalizing c with
  | nil => rfl
  | cons e es ih => rw [List.foldl_cons, ih, applyExt_constants]

/-- An iteration of `Loop` leaves the constants alone. -/
lemma Loop_iteration_constants (pid : PIDApi σ) (tf : TFApi T) (s : LoopState σ T)
    (inp : TickInput T) :
    constants (Loop_iteration pid tf s inp).1.oc = constants s.oc := by
  cases hg : guided inp.cs
  · simp [Loop_iteration, hg, Loop_manual]
  · rw [Loop_iteration_guided pid tf s inp hg]
    split
    · exact (acquired_constants pid s inp)
    · exact (acquired_constants pid s inp)

/-- A run of `Loop` leaves the constants alone. -/
lemma Loop_state_constants (pid : PIDApi σ) (tf : TFApi T) (s : LoopState σ T)
    (rs : List (Round T)) :
    constants (Loop_state pid tf s rs).oc = constants s.oc := by
  induction rs generalizing s with
  | nil => rfl
  | cons r rs ih =>
    rw [Loop_state, ih, Loop_round, Loop_iteration_constants]
    exact foldl_applyExt_constants r.ext s.oc

/-- The constants after construction and `Start`, per preset. -/
lemma Start_constants (pid : PIDApi σ) (params : Params) (pid0 : σ) (t0 : T) :
    constants (Start pid (OperatorController.new params pid0 t0))
      = if params.sitl then [1000, -1000, 60, 60, 400, 10, 0, -77, 0]
        else [1000, -1000, 45, 45, 440, 10, 0, -20, 100] := by
  cases h : params.sitl <;> simp [Start, OperatorController.new, constants, h]

/-- In every state reached from construction and `Start`, under either preset, the
deadband is `0`. -/
lemma Loop_state_deadband (pid : PIDApi σ) (tf : TFApi T) (params : Params) (pid0 : σ)
    (t0 : T) (m t : StampedTransform T) (rs : List (Round T)) :
    (Loop_state pid tf (Loop_init (Start pid (OperatorController.new params pid0 t0)) m t)
      rs).oc.deadband = 0 := by
  have hk := Loop_state_constants pid tf
    (Loop_init (Start pid (OperatorController.new params pid0 t0)) m t) rs
  rw [Loop_init, Start_constants] at hk
  cases hsitl : params.sitl <;> simp [constants, hsitl] at hk <;> exact hk.2.2.2.2.2.2.1

/-! ### Pose slots (C5) -/

/-- C5: for each role, a push of `P` followed by a pull returns `true` with the pose `P`
(stamped with the clock and the role's frame names) and clears the flag, and a second
pull with no intervening push and no push arriving during its wait returns `false`,
leaves its output argument unmodified and leaves the object as it was; the pushed pose
is delivered exactly once. -/
theorem C5_push_pull_once (c : OperatorController σ T) (P : T)
    (out out2 : StampedTransform T) (late : Option T) (now1 now2 : ℚ) :
    (GetnedMerov (SetnedMerov c P) out late now1).1 = true
    ∧ (GetnedMerov (SetnedMerov c P) out late now1).2.1
        = { transform := P, stamp := now1, frame_id := c._params.ref_tf,
            child_frame_id := c._params.robot_tf }
    ∧ (GetnedMerov (SetnedMerov c P) out late now1).2.2.nedMerovUpdated = false
    ∧ (GetnedMerov (GetnedMerov (SetnedMerov c P) out late now1).2.2 out2 none now2).1
        = false
    ∧ (GetnedMerov (GetnedMerov (SetnedMerov c P) out late now1).2.2 out2 none now2).2.1
        = out2
    ∧ (GetnedMerov (GetnedMerov (SetnedMerov c P) out late now1).2.2 out2 none now2).2.2
        = (GetnedMerov (SetnedMerov c P) out late now1).2.2
    ∧ (GetnedMtarget (SetnedMtarget c P) out late now1).1 = true
    ∧ (GetnedMtarget (SetnedMtarget c P) out late now1).2.1
        = { transform := P, stamp := now1, frame_id := c._params.ref_tf,
            child_frame_id := c._params.desired_robot_tf }
    ∧ (GetnedMtarget (SetnedMtarget c P) out late now1).2.2.nedMtargetUpdated = false
    ∧ (GetnedMtarget (GetnedMtarget (SetnedMtarget c P) out late now1).2.2 out2 none
        now2).1 = false
    ∧ (GetnedMtarget (GetnedMtarget (SetnedMtarget c P) out late now1).2.2 out2 none
        now2).2.1 = out2
    ∧ (GetnedMtarget (GetnedMtarget (SetnedMtarget c P) out late now1).2.2 out2 none
        now2).2.2 = (GetnedMtarget (SetnedMtarget c P) out late now1).2.2 := by
  simp [GetnedMerov, GetnedMtarget, SetnedMerov, SetnedMtarget]

/-! ### Pose unavailable (C1) -/

/-- C1: in an iteration whose control state is GUIDED and armed and in which pose
acquisition fails (tree-lookup mode: one of the two `lookupTransform` calls throws; push
mode: `GetnedMerov` or `GetnedMtarget` returns `false`), the calls made on the actuation
interface are exactly `[Arm(false)]` (so no `SetManualControl`, no `SetFlyMode`, no
`Arm(true)`), and no PID channel is evaluated. -/
theorem C1_pose_failure_disarms_only (pid : PIDApi σ) (tf : TFApi T) (s : LoopState σ T)
    (inp : TickInput T) (hg : guided inp.cs = true)
    (hfail :
      (s.oc._params.use_tf = true ∧ (inp.lookupRov = none ∨ inp.lookupTarget = none))
      ∨ (s.oc._params.use_tf = false
          ∧ ((GetnedMerov s.oc s.nedMerov inp.lateRov inp.nowRov).1 = false
              ∨ (GetnedMtarget s.oc s.nedMtarget inp.lateTarget inp.nowTarget).1
                  = false))) :
    (Loop_iteration pid tf s inp).2.filter Event.isActuation = [Event.Arm false]
    ∧ ∀ e ∈ (Loop_iteration pid tf s inp).2, e.isCalculate = false := by
  have hacq : (Loop_acquire (Loop_enter pid s).1 inp).1 = false := by
    rw [Loop_acquire_fst]
    obtain ⟨hp, hf1, hf2, -⟩ := Loop_enter_frame pid s
    rw [hp, hf1, hf2]
    rcases hfail with ⟨hu, h | h⟩ | ⟨hu, h | h⟩
    · simp [hu, h]
    · simp [hu, h]
    · rw [GetnedMerov_fst] at h
      simp [hu, h]
    · rw [GetnedMtarget_fst] at h
      simp [hu, h]
  have htrace : (Loop_iteration pid tf s inp).2 = (Loop_enter pid s).2 ++ Loop_abort := by
    simp [Loop_iteration, hg, hacq]
  rw [htrace, Loop_enter_events]
  cases s.manual <;>
    simp [Loop_abort, Event.isActuation, Event.isCalculate]

/-- C1, at a concrete input: tree-lookup mode, the lookup of the vehicle frame throws. -/
theorem C1_pose_failure_disarms_only_witness :
    guided (exControl FLY_MODE_R.GUIDED true) = true
    ∧ (exLoop true true (Vector3.mk 0 0 0) 0 0 0 0).oc._params.use_tf = true
    ∧ (exInput (exControl FLY_MODE_R.GUIDED true) (none : Option Vector3) none).lookupRov
        = none
    ∧ (Loop_iteration scriptedPID translationTF
          (exLoop true true (Vector3.mk 0 0 0) 0 0 0 0)
          (exInput (exControl FLY_MODE_R.GUIDED true) none none)).2.filter
        Event.isActuation = [Event.Arm false] :=
  ⟨by decide, rfl, rfl,
   (C1_pose_failure_disarms_only scriptedPID translationTF
      (exLoop true true (Vector3.mk 0 0 0) 0 0 0 0)
      (exInput (exControl FLY_MODE_R.GUIDED true) none none) (by decide)
      (Or.inl ⟨rfl, Or.inl rfl⟩)).1⟩

/-! ### Manual branch (C7, C8) -/

/-- C7, as stated, fails: with `ControlState.mode = GUIDED` and `ControlState.arm = false`
the manual branch is taken and the mode passed to `SetFlyMode` is `STABILIZE` (the
`default:` label of the `switch`), not the requested `GUIDED`. -/
theorem C7_guided_disarmed_counterexample :
    guided (exControl FLY_MODE_R.GUIDED false) = false
    ∧ flyModes (Loop_iteration scriptedPID translationTF
          (exLoop true true (Vector3.mk 0 0 0) 0 0 0 0)
          (exInput (exControl FLY_MODE_R.GUIDED false) none none)).2
        = [FLY_MODE_R.STABILIZE]
    ∧ flyModes (Loop_iteration scriptedPID translationTF
          (exLoop true true (Vector3.mk 0 0 0) 0 0 0 0)
          (exInput (exControl FLY_MODE_R.GUIDED false) none none)).2
        ≠ [(exControl FLY_MODE_R.GUIDED false).mode] := by
  refine ⟨by decide, ?_, ?_⟩ <;>
    simp [Loop_iteration, Loop_manual, guided, exControl, exInput, flyModes]

/-- C7, amended: in every iteration that takes the manual branch, exactly one
`SetFlyMode` and one `Arm` call are made; the flag passed to `Arm` is `ControlState.arm`;
the mode passed to `SetFlyMode` is `ControlState.mode` when that is `MANUAL`, `STABILIZE`
or `DEPTH_HOLD`, and `STABILIZE` when it is `GUIDED`. -/
theorem C7_manual_mode_and_arm (pid : PIDApi σ) (tf : TFApi T) (s : LoopState σ T)
    (inp : TickInput T) (hm : guided inp.cs = false) :
    (inp.cs.mode ≠ FLY_MODE_R.GUIDED →
        flyModes (Loop_iteration pid tf s inp).2 = [inp.cs.mode])
    ∧ (inp.cs.mode = FLY_MODE_R.GUIDED →
        flyModes (Loop_iteration pid tf s inp).2 = [FLY_MODE_R.STABILIZE])
    ∧ armFlags (Loop_iteration pid tf s inp).2 = [inp.cs.arm] := by
  have h : Loop_iteration pid tf s inp = Loop_manual s inp := by
    simp [Loop_iteration, hm]
  rw [h]
  refine ⟨?_, ?_, ?_⟩
  · intro hne
    cases hmode : inp.cs.mode <;> simp_all [Loop_manual, flyModes]
  · intro he
    simp [Loop_manual, flyModes, he]
  · simp [Loop_manual, armFlags]

/-- C7, amended, at a concrete input: `DEPTH_HOLD` requested, armed. -/
theorem C7_manual_mode_and_arm_witness :
    guided (exControl FLY_MODE_R.DEPTH_HOLD true) = false
    ∧ flyModes (Loop_iteration scriptedPID translationTF
          (exLoop true true (Vector3.mk 0 0 0) 0 0 0 0)
          (exInput (exControl FLY_MODE_R.DEPTH_HOLD true) none none)).2
        = [FLY_MODE_R.DEPTH_HOLD]
    ∧ armFlags (Loop_iteration scriptedPID translationTF
          (exLoop true true (Vector3.mk 0 0 0) 0 0 0 0)
          (exInput (exControl FLY_MODE_R.DEPTH_HOLD true) none none)).2
        = [true] :=
  ⟨by decide,
   (C7_manual_mode_and_arm scriptedPID translationTF
      (exLoop true true (Vector3.mk 0 0 0) 0 0 0 0)
      (exInput (exControl FLY_MODE_R.DEPTH_HOLD true) none none) (by decide)).1
      (by decide),
   (C7_manual_mode_and_arm scriptedPID translationTF
      (exLoop true true (Vector3.mk 0 0 0) 0 0 0 0)
      (exInput (exControl FLY_MODE_R.DEPTH_HOLD true) none none) (by decide)).2.2⟩

/-- C2: run `Loop` from its initial state over any sequence of rounds, and consider a
further iteration whose control state is GUIDED and armed, started from the state `s`
the object and the locals are then in.
If it is the first iteration, or the preceding iteration took the manual branch, then
`ResetPID` is invoked first: the trace opens with the `Reset` of the yaw, x, y and z
channels and of the timer, and state and remaining calls are exactly those of the
iteration run with the four channels reset, which contain no further `Reset`; every
`calculate` call of the iteration therefore comes after the reset, on reset channels.
If the preceding iteration was GUIDED and armed too (whether completed or aborted for
want of a pose), `ResetPID` is not invoked: entry changes nothing, no channel is reset,
and the timer is not reset before the channels are evaluated (from the first timer
reset in the trace onwards, which closes a completed iteration, there is no `calculate`
call). -/
theorem C2_reset_on_entry_only (pid : PIDApi σ) (tf : TFApi T)
    (c : OperatorController σ T) (m t : StampedTransform T) (pre : List (Round T))
    (r : Round T) (s : LoopState σ T)
    (hs : s = { Loop_state pid tf (Loop_init c m t) pre with
                oc := r.ext.foldl applyExt (Loop_state pid tf (Loop_init c m t) pre).oc })
    (hg : guided r.inp.cs = true) :
    ((pre.getLast? = none ∨ ∃ p, pre.getLast? = some p ∧ guided p.inp.cs = false) →
        (Loop_iteration pid tf s r.inp).2
            = [Event.PIDReset Channel.yaw, Event.PIDReset Channel.x,
               Event.PIDReset Channel.y, Event.PIDReset Channel.z, Event.TimerReset]
              ++ (Loop_iteration pid tf
                    { s with oc := (ResetPID pid s.oc).1, manual := false } r.inp).2
        ∧ (Loop_iteration pid tf s r.inp).1
            = (Loop_iteration pid tf
                  { s with oc := (ResetPID pid s.oc).1, manual := false } r.inp).1
        ∧ (ResetPID pid s.oc).1.yawPID = pid.Reset s.oc.yawPID
        ∧ (ResetPID pid s.oc).1.xPID = pid.Reset s.oc.xPID
        ∧ (ResetPID pid s.oc).1.yPID = pid.Reset s.oc.yPID
        ∧ (ResetPID pid s.oc).1.zPID = pid.Reset s.oc.zPID
        ∧ ∀ e ∈ (Loop_iteration pid tf
                  { s with oc := (ResetPID pid s.oc).1, manual := false } r.inp).2,
            e.isPIDReset = false)
    ∧ ((∃ p, pre.getLast? = some p ∧ guided p.inp.cs = true) →
        Loop_enter pid s = (s, [])
        ∧ (∀ e ∈ (Loop_iteration pid tf s r.inp).2, e.isPIDReset = false)
        ∧ ∀ e ∈ (Loop_iteration pid tf s r.inp).2.dropWhile
                  (fun e => decide (e ≠ Event.TimerReset)),
            e.isCalculate = false) := by
  have hman : s.manual
      = match pre.getLast? with
        | none => true
        | some p => !guided p.inp.cs := by
    rw [hs]
    simpa [Loop_init] using Loop_state_manual pid tf (Loop_init c m t) pre
  have hnoreset : ∀ s0 : LoopState σ T, s0.manual = false →
      (∀ e ∈ (Loop_iteration pid tf s0 r.inp).2, e.isPIDReset = false)
      ∧ ∀ e ∈ (Loop_iteration pid tf s0 r.inp).2.dropWhile
                (fun e => decide (e ≠ Event.TimerReset)),
          e.isCalculate = false := by
    intro s0 h0
    have he : Loop_enter pid s0 = (s0, []) := by simp [Loop_enter, h0]
    cases ha : (Loop_acquire s0 r.inp).1
    · have htr : (Loop_iteration pid tf s0 r.inp).2 = Loop_abort := by
        simp [Loop_iteration, hg, he, ha]
      rw [htr]
      simp [Loop_abort, Event.isPIDReset, Event.isCalculate, List.dropWhile]
    · have htr : (Loop_iteration pid tf s0 r.inp).2
          = (Loop_autonomous pid tf (Loop_acquire s0 r.inp).2 r.inp).2 := by
        simp [Loop_iteration, hg, he, ha]
      obtain ⟨x, y, z, r0, msg, ex, ey, ez, psi, hev⟩ :=
        Loop_autonomous_events pid tf (Loop_acquire s0 r.inp).2 r.inp
      rw [htr, hev]
      simp [Event.isPIDReset, Event.isCalculate, List.dropWhile]
  refine ⟨?_, ?_⟩
  · intro hprev
    have hm : s.manual = true := by
      rcases hprev with h | ⟨p, hp, hgp⟩
      · simpa [h] using hman
      · simpa [hp, hgp] using hman
    have hres : (ResetPID pid s.oc).2
        = [Event.PIDReset Channel.yaw, Event.PIDReset Channel.x,
           Event.PIDReset Channel.y, Event.PIDReset Channel.z, Event.TimerReset] := rfl
    have he : Loop_enter pid s
        = ({ s with oc := (ResetPID pid s.oc).1, manual := false },
           (ResetPID pid s.oc).2) := by
      simp [Loop_enter, hm]
    have he0 : Loop_enter pid { s with oc := (ResetPID pid s.oc).1, manual := false }
        = ({ s with oc := (ResetPID pid s.oc).1, manual := false }, []) := by
      simp [Loop_enter]
    refine ⟨?_, ?_, rfl, rfl, rfl, rfl, (hnoreset _ rfl).1⟩
    · rw [Loop_iteration_guided pid tf s r.inp hg, Loop_iteration_guided pid tf _ r.inp hg,
        he, he0, hres]
      split <;> simp
    · rw [Loop_iteration_guided pid tf s r.inp hg, Loop_iteration_guided pid tf _ r.inp hg,
        he, he0]
      split <;> simp
  · rintro ⟨p, hp, hgp⟩
    have hm : s.manual = false := by simpa [hp, hgp] using hman
    exact ⟨by simp [Loop_enter, hm], hnoreset s hm⟩

/-- C2, at a concrete run: one manual round, then a GUIDED and armed round with both
lookups succeeding; the second iteration opens with the five resets. -/
theorem C2_reset_on_entry_only_witness :
    guided (exControl FLY_MODE_R.GUIDED true) = true
    ∧ guided (exControl FLY_MODE_R.MANUAL false) = false
    ∧ (Loop_iteration scriptedPID translationTF exSecond
          (exInput (exControl FLY_MODE_R.GUIDED true) (some (Vector3.mk 0 0 0))
            (some (Vector3.mk 1 0 0)))).2
        = [Event.PIDReset Channel.yaw, Event.PIDReset Channel.x,
           Event.PIDReset Channel.y, Event.PIDReset Channel.z, Event.TimerReset]
          ++ (Loop_iteration scriptedPID translationTF
                { exSecond with oc := (ResetPID scriptedPID exSecond.oc).1,
                                manual := false }
                (exInput (exControl FLY_MODE_R.GUIDED true) (some (Vector3.mk 0 0 0))
                  (some (Vector3.mk 1 0 0)))).2 :=
  ⟨by decide, by decide,
   ((C2_reset_on_entry_only scriptedPID translationTF
      (exController true true (Vector3.mk 0 0 0) 0 0 0 0)
      (exStamped (Vector3.mk 0 0 0)) (exStamped (Vector3.mk 0 0 0))
      [{ ext := [], inp := exInput (exControl FLY_MODE_R.MANUAL false) none none }]
      { ext := [],
        inp := exInput (exControl FLY_MODE_R.GUIDED true) (some (Vector3.mk 0 0 0))
                (some (Vector3.mk 1 0 0)) }
      exSecond rfl (by decide)).1
      (Or.inr ⟨_, rfl, by decide⟩)).1⟩

/-! ### Command shaping in the autonomous branch (C3, C4, C6, C9) -/

/-- C6, as stated, fails: under the `sitl` preset (`xoffset = 60`), when the x channel
returns `100` the scaled value is `1000` and the x value passed to `SetManualControl`
is `1060`, outside `[vmin, vmax] = [-1000, 1000]`. -/
theorem C6_x_exceeds_vmax_counterexample :
    guided exGuided.cs = true
    ∧ (Loop_acquire (Loop_enter scriptedPID (exLoop true true exOrigin 100 0 0 0)).1
        exGuided).1 = true
    ∧ commands (Loop_iteration scriptedPID translationTF
        (exLoop true true exOrigin 100 0 0 0) exGuided).2 = [(1060, 0, 105, 0)]
    ∧ (exLoop true true exOrigin 100 0 0 0).oc.vmax = 1000
    ∧ ¬ ((1060 : ℚ) ≤ (exLoop true true exOrigin 100 0 0 0).oc.vmax) := by
  refine ⟨by decide, by decide, ?_, ?_, ?_⟩ <;>
    norm_num [Loop_iteration, guided, Loop_enter, Loop_init, Loop_acquire, Start,
      OperatorController.new, ResetPID, Loop_autonomous, GetLinearXVel, GetLinearYVel,
      GetLinearZVel, keepHeadingIteration, scriptedPID, translationTF, ceil, ArduSubXYR,
      ArduSubZ, commands, exLoop, exInput, exController, exParams, exStamped, exControl,
      exGuided, exOrigin, exAhead]

/-- C6, amended: construct the object, `Start` it under either preset and run `Loop`
over any sequence of rounds; in any further iteration of the autonomous branch with a
successful pose acquisition, whatever the x channel returns, the x value passed to
`SetManualControl` lies within `[vmin - xoffset, vmax + xoffset]`, where
`[vmin, vmax] = [-1000, 1000]` and `xoffset` is `60` under `sitl` and `45` under
`hardware`: within `[-1060, 1060]`, respectively `[-1045, 1045]`. -/
theorem C6_x_command_range (pid : PIDApi σ) (tf : TFApi T) (params : Params) (pid0 : σ)
    (t0 : T) (m t : StampedTransform T) (pre : List (Round T)) (r : Round T)
    (s : LoopState σ T)
    (hs : s = { Loop_state pid tf
                  (Loop_init (Start pid (OperatorController.new params pid0 t0)) m t) pre with
                oc := r.ext.foldl applyExt
                  (Loop_state pid tf
                    (Loop_init (Start pid (OperatorController.new params pid0 t0)) m t)
                    pre).oc })
    (hg : guided r.inp.cs = true)
    (hacq : (Loop_acquire (Loop_enter pid s).1 r.inp).1 = true) :
    ∃ x y z r0, commands (Loop_iteration pid tf s r.inp).2 = [(x, y, z, r0)]
      ∧ s.oc.vmin = -1000 ∧ s.oc.vmax = 1000
      ∧ s.oc.xoffset = (if params.sitl then 60 else 45)
      ∧ s.oc.vmin - s.oc.xoffset ≤ x ∧ x ≤ s.oc.vmax + s.oc.xoffset := by
  have hk : constants s.oc
      = if params.sitl then [1000, -1000, 60, 60, 400, 10, 0, -77, 0]
        else [1000, -1000, 45, 45, 440, 10, 0, -20, 100] := by
    rw [hs]
    simp only []
    rw [foldl_applyExt_constants, Loop_state_constants]
    exact Start_constants pid params pid0 t0
  have hvals : s.oc.vmax = 1000 ∧ s.oc.vmin = -1000
      ∧ s.oc.xoffset = (if params.sitl then 60 else 45) ∧ s.oc.deadband = 0 := by
    cases hsitl : params.sitl <;> simp [constants, hsitl] at hk <;> simp [hk]
  obtain ⟨hmax, hmin, hxo, hdb⟩ := hvals
  have hxpos : (0 : ℚ) ≤ s.oc.xoffset := by
    rw [hxo]; split <;> norm_num
  have hc := acquired_constants pid s r.inp
  simp only [constants, List.cons.injEq, and_true] at hc
  obtain ⟨-, -, -, hxo2, -, -, hdb2, -, -⟩ := hc
  rw [Loop_iteration_commands pid tf s r.inp hg hacq, Loop_autonomous_commands]
  simp only [ceil_ArduSubXYR, hxo2, hdb2]
  refine ⟨_, _, _, _, rfl, hmin, hmax, hxo, ?_, ?_⟩
  · obtain ⟨hlo, hhi⟩ :=
      scaled_saturated_bounds (xOutput pid tf (acquired pid s r.inp) r.inp)
    rw [hmin]
    split_ifs <;> linarith
  · obtain ⟨hlo, hhi⟩ :=
      scaled_saturated_bounds (xOutput pid tf (acquired pid s r.inp) r.inp)
    rw [hmax]
    split_ifs <;> linarith

/-- C6, amended, at a concrete run: the first iteration after `Start` under `sitl`. -/
theorem C6_x_command_range_witness :
    guided exGuided.cs = true
    ∧ (Loop_acquire (Loop_enter scriptedPID exFresh).1 exGuided).1 = true
    ∧ ∃ x y z r0,
        commands (Loop_iteration scriptedPID translationTF exFresh exGuided).2
          = [(x, y, z, r0)]
        ∧ exFresh.oc.vmin = -1000 ∧ exFresh.oc.vmax = 1000
        ∧ exFresh.oc.xoffset = (if (exParams true true).sitl then 60 else 45)
        ∧ exFresh.oc.vmin - exFresh.oc.xoffset ≤ x
        ∧ x ≤ exFresh.oc.vmax + exFresh.oc.xoffset :=
  ⟨by decide, by decide,
   C6_x_command_range scriptedPID translationTF (exParams true true) [] exOrigin
     (exStamped exOrigin) (exStamped exOrigin) []
     { ext := [], inp := exGuided } exFresh rfl (by decide) (by decide)⟩

/-- C9, evaluated where it fails: under the `sitl` preset, when the x channel and the
yaw channel both return `150` (inside the channels' limits `[-1000, 1000]`), the x
output is saturated to `100` before it is scaled (`1000`, commanded `1060`), but the yaw
output is not: its scaled value `ceil(10 * 150)` is `1500`, above `1000`, and the yaw
value passed to `SetManualControl` is `1500 + 400 + 5 = 1905`. -/
theorem C9_yaw_not_saturated :
    guided exGuided.cs = true
    ∧ (Loop_acquire (Loop_enter scriptedPID (exLoop true true exOrigin 150 0 0 150)).1
        exGuided).1 = true
    ∧ yawOutput scriptedPID translationTF
        (acquired scriptedPID (exLoop true true exOrigin 150 0 0 150) exGuided) exGuided
        = 150
    ∧ ceil (ArduSubXYR 150) = 1500
    ∧ commands (Loop_iteration scriptedPID translationTF
        (exLoop true true exOrigin 150 0 0 150) exGuided).2 = [(1060, 0, 105, 1905)] := by
  refine ⟨by decide, by decide, ?_, ?_, ?_⟩ <;>
    norm_num [Loop_iteration, guided, Loop_enter, Loop_init, Loop_acquire, Start,
      OperatorController.new, ResetPID, Loop_autonomous, GetLinearXVel, GetLinearYVel,
      GetLinearZVel, keepHeadingIteration, scriptedPID, translationTF, ceil, ArduSubXYR,
      ArduSubZ, commands, exLoop, exInput, exController, exParams, exStamped, exControl,
      exGuided, exOrigin, exAhead, yawOutput, acquired]

/-! ### Errors presented to the channels (C10) -/

/-- C10, as stated, fails for the yaw channel: with the vehicle heading `0` and the
target heading `1` radian, the body-frame yaw error is `psi = 1`, the yaw channel is
called with setpoint `0` and measurement `-1`, so the error `setpoint - measurement`
presented to it is `1 = psi`, not `-psi = -1`. -/
theorem C10_yaw_error_counterexample :
    guided exTurn.cs = true
    ∧ (Loop_acquire (Loop_enter scriptedPID (exLoop true true (0 : ℚ) 0 0 0 0)).1
        exTurn).1 = true
    ∧ headingTF.getYaw (bodyTarget headingTF
        (acquired scriptedPID (exLoop true true (0 : ℚ) 0 0 0 0) exTurn)) = 1
    ∧ calculateCalls Channel.yaw (Loop_iteration scriptedPID headingTF
        (exLoop true true (0 : ℚ) 0 0 0 0) exTurn).2 = [(1 / 10, 0, -1)]
    ∧ (0 : ℚ) - (-1) ≠ -1 := by
  refine ⟨by decide, by decide, ?_, ?_, by norm_num⟩
  · norm_num [Loop_enter, Loop_init, Loop_acquire, Start, OperatorController.new,
      ResetPID, scriptedPID, headingTF, exLoop, exInput, exController, exParams,
      exStamped, exControl, exTurn, bodyTarget, acquired]
  · rw [Loop_iteration_calculateCalls _ _ _ _ _ (by decide) (by decide),
      (Loop_autonomous_calculateCalls _ _ _ _).2.2.2]
    norm_num [Loop_enter, Loop_init, Loop_acquire, Start, OperatorController.new,
      ResetPID, scriptedPID, headingTF, exLoop, exInput, exController, exParams,
      exStamped, exControl, exTurn, bodyTarget, acquired]

/-- C10, amended: in an iteration of the autonomous branch with a successful pose
acquisition, with body-frame target translation `(ex, ey, ez)` and body-frame yaw error
`psi`, each channel is evaluated exactly once, with setpoint `0`, and the error
`setpoint - measurement` presented to it is `ex` for x, `ey` for y, `-ez` (negated) for
z, and `psi` (not negated) for yaw. -/
theorem C10_channel_errors (pid : PIDApi σ) (tf : TFApi T) (s : LoopState σ T)
    (inp : TickInput T) (hg : guided inp.cs = true)
    (hacq : (Loop_acquire (Loop_enter pid s).1 inp).1 = true) :
    ∃ px py pz pr : ℚ,
      calculateCalls Channel.x (Loop_iteration pid tf s inp).2
          = [(inp.elapsedMs / 1000, 0, px)]
      ∧ 0 - px = (tf.getOrigin (bodyTarget tf (acquired pid s inp))).x
      ∧ calculateCalls Channel.y (Loop_iteration pid tf s inp).2
          = [(inp.elapsedMs / 1000, 0, py)]
      ∧ 0 - py = (tf.getOrigin (bodyTarget tf (acquired pid s inp))).y
      ∧ calculateCalls Channel.z (Loop_iteration pid tf s inp).2
          = [(inp.elapsedMs / 1000, 0, pz)]
      ∧ 0 - pz = -(tf.getOrigin (bodyTarget tf (acquired pid s inp))).z
      ∧ calculateCalls Channel.yaw (Loop_iteration pid tf s inp).2
          = [(inp.elapsedMs / 1000, 0, pr)]
      ∧ 0 - pr = tf.getYaw (bodyTarget tf (acquired pid s inp)) := by
  obtain ⟨hx, hy, hz, hr⟩ := Loop_autonomous_calculateCalls pid tf (acquired pid s inp) inp
  refine ⟨-(tf.getOrigin (bodyTarget tf (acquired pid s inp))).x,
    -(tf.getOrigin (bodyTarget tf (acquired pid s inp))).y,
    -(-(tf.getOrigin (bodyTarget tf (acquired pid s inp))).z),
    -1 * tf.getYaw (bodyTarget tf (acquired pid s inp)), ?_, ?_, ?_, ?_, ?_, ?_, ?_, ?_⟩
  · rw [Loop_iteration_calculateCalls pid tf s inp Channel.x hg hacq]; exact hx
  · ring
  · rw [Loop_iteration_calculateCalls pid tf s inp Channel.y hg hacq]; exact hy
  · ring
  · rw [Loop_iteration_calculateCalls pid tf s inp Channel.z hg hacq]; exact hz
  · ring
  · rw [Loop_iteration_calculateCalls pid tf s inp Channel.yaw hg hacq]; exact hr
  · ring

/-- C10, amended, at a concrete input: vehicle heading `0`, target heading `1`. -/
theorem C10_channel_errors_witness :
    guided exTurn.cs = true
    ∧ (Loop_acquire (Loop_enter scriptedPID (exLoop true true (0 : ℚ) 0 0 0 0)).1
        exTurn).1 = true
    ∧ ∃ pr : ℚ,
        calculateCalls Channel.yaw (Loop_iteration scriptedPID headingTF
            (exLoop true true (0 : ℚ) 0 0 0 0) exTurn).2
          = [(exTurn.elapsedMs / 1000, 0, pr)]
        ∧ 0 - pr = headingTF.getYaw (bodyTarget headingTF
            (acquired scriptedPID (exLoop true true (0 : ℚ) 0 0 0 0) exTurn)) :=
  ⟨by decide, by decide,
   match C10_channel_errors scriptedPID headingTF (exLoop true true (0 : ℚ) 0 0 0 0)
       exTurn (by decide) (by decide) with
   | ⟨_, _, _, pr, _, _, _, _, _, _, h7, h8⟩ => ⟨pr, h7, h8⟩⟩

end mavlink_ros
